import Mathlib

/-!
Verification development for the city-autocomplete ranking service.

The definitions below are a shallow embedding of the JavaScript source in
src/app/routes/city-autocomplete.js (the canonical search route).  JavaScript
strings are modelled as lists of characters, JavaScript numbers as rationals
where only field arithmetic occurs and as reals where logarithms, square
roots or trigonometric functions appear.  NaN has no counterpart in this
model; the `x || 0` coercions in the source are modelled as the
zero-is-falsy case only.
-/

/-! ### String helpers (JS string methods on lists of characters) -/

/-- JS String.prototype.toLowerCase, per character. -/
def lowerStr (s : List Char) : List Char := s.map Char.toLower

/-- JS String.prototype.toUpperCase, per character. -/
def upperStr (s : List Char) : List Char := s.map Char.toUpper

@[simp] theorem lowerStr_length (s : List Char) : (lowerStr s).length = s.length := by
  simp [lowerStr]

/-- JS String.prototype.split on the whitespace regexp: cuts the string at
maximal whitespace runs, keeping empty pieces at the two ends. -/
def splitWsGo : List Char → List Char → List (List Char)
  | [], acc => [acc.reverse]
  | c :: cs, acc =>
    if c.isWhitespace then
      acc.reverse :: splitWsGo (cs.dropWhile Char.isWhitespace) []
    else
      splitWsGo cs (c :: acc)
termination_by s _ => s.length
decreasing_by
  · exact Nat.lt_succ_of_le (List.dropWhile_sublist _).length_le
  · exact Nat.lt_succ_self _

def splitWs (s : List Char) : List (List Char) := splitWsGo s []

/-- JS String.prototype.includes: does s contain pat as a contiguous part. -/
def listIncludes (s pat : List Char) : Bool :=
  match s with
  | [] => pat.isEmpty
  | _ :: rest => pat.isPrefixOf s || listIncludes rest pat

/-! ### Levenshtein distance (levenshteinDistance in the source)

The source fills the classic dynamic-programming matrix with unit costs for
insertion, deletion and substitution; the recursion below computes the same
edit distance. -/

def levenshteinDistance : List Char → List Char → ℕ
  | [], b => b.length
  | a, [] => a.length
  | x :: xs, y :: ys =>
    min (min (levenshteinDistance (x :: xs) ys + 1) (levenshteinDistance xs (y :: ys) + 1))
      (levenshteinDistance xs ys + (if x = y then 0 else 1))
termination_by a b => a.length + b.length
decreasing_by all_goals (simp; try omega)

theorem levenshteinDistance_le :
    ∀ a b : List Char, levenshteinDistance a b ≤ max a.length b.length
  | [], b => by simp [levenshteinDistance]
  | x :: xs, [] => by simp [levenshteinDistance]
  | x :: xs, y :: ys => by
    have h := levenshteinDistance_le xs ys
    have hstep : levenshteinDistance (x :: xs) (y :: ys) ≤
        levenshteinDistance xs ys + (if x = y then 0 else 1) := by
      rw [levenshteinDistance]
      exact min_le_right _ _
    have hif : (if x = y then 0 else 1) ≤ 1 := by split <;> omega
    simp only [List.length_cons]
    omega
termination_by a b => a.length + b.length
decreasing_by all_goals (simp; try omega)

/-! ### Text match scorer (calculateTextMatchScore in the source) -/

/-- The 30 percent length threshold used for fuzzy matching,
Math.max(2, Math.floor(length * 0.3)). -/
def fuzzyThreshold (len : ℕ) : ℕ := max 2 (Nat.floor ((len : ℚ) * (3 / 10)))

/-- The inner for-loop over query words for one candidate word: first check
word.startsWith(queryWord), then the per-word fuzzy match, in source order. -/
def innerWordLoop (word : List Char) : List (List Char) → Option ℚ
  | [] => none
  | qw :: rest =>
    if qw.isPrefixOf word then some 0.5
    else if levenshteinDistance word qw ≤ fuzzyThreshold qw.length then some 0.4
    else innerWordLoop word rest

/-- The outer for-loop over candidate words; 0.2 is the no-match fallback. -/
def wordLoop : List (List Char) → List (List Char) → ℚ
  | [], _ => 0.2
  | w :: ws, qs =>
    match innerWordLoop w qs with
    | some v => v
    | none => wordLoop ws qs

def calculateTextMatchScore (cityName query : List Char) : ℚ :=
  let cityLower := lowerStr cityName
  let queryLower := lowerStr query
  if cityLower = queryLower then 1
  else if queryLower.isPrefixOf cityLower then 0.95
  else if (listIncludes cityLower (' ' :: queryLower ++ [' ']) ||
      (queryLower ++ [' ']).isPrefixOf cityLower ||
      (' ' :: queryLower).isSuffixOf cityLower) then 0.8
  else if listIncludes cityLower queryLower then 0.6
  else
    let maxDistance := fuzzyThreshold queryLower.length
    let distance := levenshteinDistance cityLower queryLower
    if distance ≤ maxDistance then
      let similarity : ℚ := 1 - (distance : ℚ) / (max cityLower.length queryLower.length : ℚ)
      0.4 + similarity * 0.2
    else
      wordLoop (splitWs cityLower) (splitWs queryLower)

/-! ### Population normalizer (normalizePopulation in the source) -/

/-- Math.log10(population) / Math.log10(maxPopulation), with the falsy guard
on population (null or 0 gives 0). -/
noncomputable def normalizePopulation (population : Option ℕ) (maxPopulation : ℝ) : ℝ :=
  match population with
  | none => 0
  | some p => if p = 0 then 0 else Real.logb 10 p / Real.logb 10 maxPopulation

/-! ### Haversine distance (calculateDistance in the source) -/

/-- Math.atan2. -/
noncomputable def jsAtan2 (y x : ℝ) : ℝ :=
  if 0 < x then Real.arctan (y / x)
  else if x < 0 then
    (if 0 ≤ y then Real.arctan (y / x) + Real.pi else Real.arctan (y / x) - Real.pi)
  else
    (if 0 < y then Real.pi / 2 else if y < 0 then -(Real.pi / 2) else 0)

noncomputable def calculateDistance (lat1 lon1 lat2 lon2 : ℝ) : ℝ :=
  let R : ℝ := 6371
  let dLat := (lat2 - lat1) * Real.pi / 180
  let dLon := (lon2 - lon1) * Real.pi / 180
  let a := Real.sin (dLat / 2) * Real.sin (dLat / 2) +
    Real.cos (lat1 * Real.pi / 180) * Real.cos (lat2 * Real.pi / 180) *
    Real.sin (dLon / 2) * Real.sin (dLon / 2)
  let c := 2 * jsAtan2 (Real.sqrt a) (Real.sqrt (1 - a))
  R * c

/-! ### Data model -/

structure Location where
  lat : ℚ
  lon : ℚ
deriving DecidableEq

/-- A row of the cities table. -/
structure City where
  geoname_id : ℕ
  city_name : List Char
  country_code : Option (List Char)
  state_code : Option (List Char)
  state_name : Option (List Char)
  latitude : ℚ
  longitude : ℚ
  population : Option ℕ
deriving DecidableEq

/-! ### The SQL stage of the search route

The route builds one statement: a search_results CTE that filters the cities
table by the optional query/country_code/state_code parameters, computes a
match_score CASE and a point-operator distance column, orders by
(match_score DESC, population DESC NULLS LAST, distance ASC NULLS LAST) and
applies LIMIT/OFFSET; the outer SELECT attaches the COUNT of every row
matching the same WHERE clause as total_count. -/

/-- JS truthiness of an optional query-string parameter: present and
non-empty ("if (query)" and friends). -/
def paramActive : Option (List Char) → Bool
  | some (_ :: _) => true
  | _ => false

/-- The WHERE clause: LIKE-containment on the lowercased name when a query is
given, exact equality on the uppercased country/state codes when given.
LIKE metacharacters inside the parameter are not modelled. -/
def rowFilter (query cc sc : Option (List Char)) (c : City) : Bool :=
  (cond (paramActive query) (listIncludes (lowerStr c.city_name) (lowerStr (query.getD []))) true)
  && (cond (paramActive cc) (c.country_code == some (upperStr (cc.getD []))) true)
  && (cond (paramActive sc) (c.state_code == some (upperStr (sc.getD []))) true)

/-- The value bound to the first placeholder, which the match_score CASE
reads: the query when given, otherwise the first of the other text filters
pushed onto the parameter list.  When none of the three text parameters is
present the first placeholder holds the numeric-or-NULL latitude parameter;
its text cast never equals a (sane) city name and the CASE then yields 1.0
just as its ELSE arm does, so that corner is modelled as NULL. -/
def sqlParam1 (query cc sc : Option (List Char)) : Option (List Char) :=
  if paramActive query then some (query.getD [])
  else if paramActive cc then some (upperStr (cc.getD []))
  else if paramActive sc then some (upperStr (sc.getD []))
  else none

/-- The match_score CASE of the search statement. -/
def matchScoreSql (p1 : Option (List Char)) (name : List Char) : ℚ :=
  match p1 with
  | none => 1.0
  | some t =>
    if lowerStr name = lowerStr t then 1.0
    else if (lowerStr t).isPrefixOf (lowerStr name) then 0.9
    else if listIncludes (lowerStr name) (lowerStr t) then 0.8
    else 1.0

/-- The point(a,b) <-> point(c,d) operator: planar Euclidean distance between
the two coordinate pairs, in degrees.  The route passes (latitude, longitude)
pairs to it. -/
noncomputable def pointOpDist (ulat ulon lat lon : ℚ) : ℝ :=
  Real.sqrt (((ulat : ℝ) - (lat : ℝ)) ^ 2 + ((ulon : ℝ) - (lon : ℝ)) ^ 2)

/-- A row returned by the search statement. -/
structure SqlRow where
  city : City
  match_score : ℚ
  distance : Option ℝ
  total_count : ℕ

/-- Strict "comes first" for population DESC NULLS LAST. -/
def popDescBefore : Option ℕ → Option ℕ → Prop
  | some p, some q => q < p
  | some _, none => True
  | none, _ => False

/-- Non-strict "may come first" for distance ASC NULLS LAST. -/
def distAscLe : Option ℝ → Option ℝ → Prop
  | _, none => True
  | none, some _ => False
  | some d, some e => d ≤ e

/-- The ORDER BY relation of the search statement: a may be listed before b. -/
def sqlOrderLe (a b : SqlRow) : Prop :=
  b.match_score < a.match_score ∨
    (a.match_score = b.match_score ∧
      (popDescBefore a.city.population b.city.population ∨
        (a.city.population = b.city.population ∧ distAscLe a.distance b.distance)))

instance : ∀ p q, Decidable (popDescBefore p q) := fun p q => by
  unfold popDescBefore
  cases p <;> cases q <;> exact inferInstanceAs (Decidable _)

noncomputable instance : ∀ d e, Decidable (distAscLe d e) := fun d e => by
  unfold distAscLe
  cases d <;> cases e <;> exact inferInstanceAs (Decidable _)

noncomputable instance : ∀ a b, Decidable (sqlOrderLe a b) := fun a b => by
  unfold sqlOrderLe
  exact inferInstanceAs (Decidable _)

noncomputable def sqlOrderLeB (a b : SqlRow) : Bool := decide (sqlOrderLe a b)

/-- The rows the route receives from the search statement: filter, compute
the two derived columns and the total count, order, then OFFSET/LIMIT. -/
noncomputable def sqlRows (db : List City) (query cc sc : Option (List Char))
    (loc : Option Location) (lim off : ℕ) : List SqlRow :=
  let filtered := db.filter (rowFilter query cc sc)
  let annotated := filtered.map (fun c =>
    { city := c
      match_score := matchScoreSql (sqlParam1 query cc sc) c.city_name
      distance := loc.map (fun u => pointOpDist u.lat u.lon c.latitude c.longitude)
      total_count := filtered.length })
  ((annotated.mergeSort sqlOrderLeB).drop off).take lim

/-! ### Scoring, sorting and the response of the search route -/

/-- JS x || y on numbers, for a left operand that cannot be NaN: 0 is falsy. -/
noncomputable def jsOrNum (x y : ℝ) : ℝ := if x = 0 then y else x

/-- JS x || y on a natural-number field read through optional chaining. -/
def jsOrNat (x : Option ℕ) (y : ℕ) : ℕ :=
  match x with
  | some n => if n = 0 then y else n
  | none => y

/-- The per-candidate distance score of the route,
city.distance ? Math.max(0, 1 - city.distance / 1000) : 0.5.
The condition is JS truthiness, so a distance of exactly 0 takes the
0.5 arm just as a NULL distance does. -/
noncomputable def routeDistanceScore : Option ℝ → ℝ
  | none => 0.5
  | some d => if d = 0 then 0.5 else max 0 (1 - d / 1000)

/-- The debug block attached to each result when useLocation is requested. -/
structure DebugInfo where
  populationScore : ℝ
  textMatchScore : ℝ
  distanceScore : ℝ
  distance : Option ℝ
  userLocation : Option Location
  useDistanceScoring : Bool

/-- One element of the response data array. -/
structure ScoredCity where
  geoname_id : ℕ
  city_name : List Char
  country_code : Option (List Char)
  state_code : Option (List Char)
  state_name : Option (List Char)
  latitude : ℚ
  longitude : ℚ
  population : Option ℕ
  score : ℝ
  debug : Option DebugInfo

/-- The map over searchResults.rows: population score against the fixed
reference maximum 10000000, the match_score column as text score, the
distance score, and their weighted blend. -/
noncomputable def scoreCity (useLocation : Bool) (userLocation : Option Location)
    (row : SqlRow) : ScoredCity :=
  let populationScore := normalizePopulation row.city.population 10000000
  let textMatchScore : ℝ := (row.match_score : ℝ)
  let distanceScore := routeDistanceScore row.distance
  let finalScore := populationScore * 0.2 + textMatchScore * 0.7 + distanceScore * 0.1
  { geoname_id := row.city.geoname_id
    city_name := row.city.city_name
    country_code := row.city.country_code
    state_code := row.city.state_code
    state_name := row.city.state_name
    latitude := row.city.latitude
    longitude := row.city.longitude
    population := row.city.population
    score := jsOrNum finalScore 0
    debug :=
      if useLocation then
        some { populationScore := jsOrNum populationScore 0
               textMatchScore := textMatchScore
               distanceScore := distanceScore
               distance := match row.distance with
                 | some d => if d = 0 then none else some d
                 | none => none
               userLocation := userLocation
               useDistanceScoring := userLocation.isSome }
      else none }

/-- scoredResults.sort((a, b) => b.score - a.score): a stable sort that keeps
a before b whenever the comparator is non-positive. -/
noncomputable def jsSortLeB (a b : ScoredCity) : Bool := decide (b.score ≤ a.score)

/-- The data array of the response for a page request of the given limit and
offset: SQL stage, scoring map, then the in-process sort by final score. -/
noncomputable def pipelineData (db : List City) (query cc sc : Option (List Char))
    (useLocation : Bool) (resolvedLoc : Location) (lim off : ℕ) : List ScoredCity :=
  let userLocation := if useLocation then some resolvedLoc else none
  ((sqlRows db query cc sc userLocation lim off).map
    (scoreCity useLocation userLocation)).mergeSort jsSortLeB

structure Pagination where
  offset : ℕ
  limit : ℕ
  total : ℕ
  hasMore : Bool

structure SearchResponse where
  data : List ScoredCity
  pagination : Pagination

/-- The successful JSON payload of GET /: the route uses the fixed page size
10 and reads the total from the first returned row via optional chaining. -/
noncomputable def searchResponse (db : List City) (query cc sc : Option (List Char))
    (useLocation : Bool) (resolvedLoc : Location) (off : ℕ) : SearchResponse :=
  let userLocation := if useLocation then some resolvedLoc else none
  let rows := sqlRows db query cc sc userLocation 10 off
  let total := jsOrNat (rows.head?.map SqlRow.total_count) 0
  { data := pipelineData db query cc sc useLocation resolvedLoc 10 off
    pagination :=
      { offset := off, limit := 10, total := total
        hasMore := decide (off + 10 < total) } }

/-- Outcome of one request to the route.  The only error arm in the source
is the 500 on a storage failure; the pure embedding cannot fail, and the
source has no other error branch (in particular none for a missing query). -/
inductive RouteOutcome where
  | ok (resp : SearchResponse)
  | err (status : ℕ) (message : List Char)

noncomputable def handleSearch (db : List City) (query cc sc : Option (List Char))
    (useLocation : Bool) (resolvedLoc : Location) (off : ℕ) : RouteOutcome :=
  .ok (searchResponse db query cc sc useLocation resolvedLoc off)

def RouteOutcome.statusCode : RouteOutcome → ℕ
  | .ok _ => 200
  | .err s _ => s

def RouteOutcome.pageLength : RouteOutcome → ℕ
  | .ok r => r.data.length
  | .err _ _ => 0

/-! ### Geolocation resolver (getLocationFromIP in the source) -/

def CACHE_TTL : ℕ := 24 * 60 * 60 * 1000

def defaultLocation : Location := { lat := 50.6333, lon := 3.0667 }

structure GeoCacheEntry where
  location : Location
  timestamp : ℕ
deriving DecidableEq

def GeoCache : Type := List Char → Option GeoCacheEntry

def emptyGeoCache : GeoCache := fun _ => none

def cacheSet (m : GeoCache) (k : List Char) (v : GeoCacheEntry) : GeoCache :=
  fun k' => if k' = k then some v else m k'

def cacheErase (m : GeoCache) (k : List Char) : GeoCache :=
  fun k' => if k' = k then none else m k'

/-- The IPv6-mapped-IPv4 marker stripped from incoming addresses. -/
def ipv6Mapped : List Char := [':', ':', 'f', 'f', 'f', 'f', ':']

/-- JS String.prototype.replace with a string pattern and empty replacement:
removes the first occurrence of the pattern. -/
def replaceFirst : List Char → List Char → List Char
  | [], _ => []
  | c :: cs, pat =>
    if pat.isPrefixOf (c :: cs) then (c :: cs).drop pat.length
    else c :: replaceFirst cs pat

def isLocalIp (ip : List Char) : Bool :=
  ip == ['1', '2', '7', '.', '0', '.', '0', '.', '1']
  || (['1', '7', '2', '.']).isPrefixOf ip
  || (['1', '9', '2', '.', '1', '6', '8', '.']).isPrefixOf ip

/-- The lat/lon fields of the upstream JSON body, when it parses to an
object. -/
structure IpApiFields where
  lat : Option ℚ
  lon : Option ℚ
deriving DecidableEq

/-- What the network round trip to ip-api.com can deliver. -/
inductive UpstreamOutcome where
  | netError
  | malformedBody
  | parsedNull
  | parsed (fields : IpApiFields)
deriving DecidableEq

/-- JS truthiness of result.lat: present and non-zero. -/
def jsFieldTruthy : Option ℚ → Bool
  | none => false
  | some x => !(x == 0)

/-- Step 2 of the resolver: the fresh-cache lookup. -/
def cacheHit (cache : GeoCache) (now : ℕ) (ip : List Char) : Option Location :=
  match cache ip with
  | some cached => if now - cached.timestamp < CACHE_TTL then some cached.location else none
  | none => none

/-- The body of the resolver past the cache check: local addresses and every
upstream failure shape resolve to the fixed default location, and every one
of these arms writes the cache. -/
def resolveUncached (cache : GeoCache) (now : ℕ) (ip : List Char)
    (upstream : UpstreamOutcome) : Location × GeoCache :=
  if isLocalIp ip then
    (defaultLocation, cacheSet cache ip ⟨defaultLocation, now⟩)
  else
    match upstream with
    | .parsed fields =>
      if jsFieldTruthy fields.lat && jsFieldTruthy fields.lon then
        let loc : Location := ⟨fields.lat.getD 0, fields.lon.getD 0⟩
        (loc, cacheSet cache ip ⟨loc, now⟩)
      else (defaultLocation, cacheSet cache ip ⟨defaultLocation, now⟩)
    | _ => (defaultLocation, cacheSet cache ip ⟨defaultLocation, now⟩)

def getLocationFromIP (cache : GeoCache) (now : ℕ) (ip0 : List Char)
    (upstream : UpstreamOutcome) : Location × GeoCache :=
  let ip := replaceFirst ip0 ipv6Mapped
  match cacheHit cache now ip with
  | some loc => (loc, cache)
  | none => resolveUncached cache now ip upstream

/-! ### Helper lemmas -/

theorem jsOrNum_zero_right (x : ℝ) : jsOrNum x 0 = x := by
  unfold jsOrNum
  split <;> simp_all

theorem pairwise_replicate_of_rel {α : Type} (r : α → α → Prop) (a : α) (h : r a a) :
    ∀ n, (List.replicate n a).Pairwise r := by
  intro n
  induction n with
  | zero => simp
  | succ n ih =>
    rw [List.replicate_succ, List.pairwise_cons]
    exact ⟨fun b hb => (List.eq_of_mem_replicate hb) ▸ h, ih⟩

theorem head_of_pairwise_two {α : Type} (r : α → α → Prop) (l : List α) (a b : α)
    (hp : l.Pairwise r) (hb : b ∈ l) (hmem : ∀ x ∈ l, x = a ∨ x = b) (hnr : ¬ r a b) :
    l.head? = some b := by
  cases l with
  | nil => simp at hb
  | cons x xs =>
    rcases hmem x (List.mem_cons_self _ _) with hx | hx
    · rcases List.mem_cons.mp hb with hbx | hbx
      · simp [hbx]
      · exact absurd (hx ▸ (List.pairwise_cons.mp hp).1 b hbx) hnr
    · simp [hx]

/-! ### C5 (code slip in the proximity score) -/

/-- C5: the proximity score evaluated at the spec's reference points.  The
claim asks for 1.0 at distance 0; the route's truthiness check conflates a
distance of exactly 0 with a NULL distance and yields the neutral 0.5
instead.  The 1000 km zero, the clamping beyond 1000 km and the neutral 0.5
for an absent location all hold. -/
theorem claim_C5_proximity_eval :
    routeDistanceScore (some 0) = 0.5 ∧
    routeDistanceScore (some 1000) = 0 ∧
    routeDistanceScore (some 2000) = 0 ∧
    routeDistanceScore none = 0.5 := by
  refine ⟨by simp [routeDistanceScore], ?_, ?_, rfl⟩
  · simp only [routeDistanceScore]
    rw [if_neg (by norm_num)]
    norm_num
  · simp only [routeDistanceScore]
    rw [if_neg (by norm_num)]
    rw [max_eq_left (by norm_num)]

/-! ### C7 (population normalizer range) -/

/-- C7 counterexample: normalize is not always within the unit interval; a
population of 10^8 against the maximum 10^7 normalizes to 8/7 > 1. -/
theorem claim_C7_counterexample :
    normalizePopulation (some (10 ^ 8)) (10 ^ 7) = 8 / 7 ∧
    ¬ normalizePopulation (some (10 ^ 8)) (10 ^ 7) ≤ 1 := by
  have h10 : (1 : ℝ) < 10 := by norm_num
  have hcast : ((10 ^ 8 : ℕ) : ℝ) = (10 : ℝ) ^ (8 : ℕ) := by push_cast; ring
  have hval : normalizePopulation (some (10 ^ 8)) (10 ^ 7) = 8 / 7 := by
    simp only [normalizePopulation]
    rw [if_neg (by norm_num), hcast, Real.logb_pow, Real.logb_pow,
      Real.logb_self_eq_one h10]
    norm_num
  exact ⟨hval, by rw [hval]; norm_num⟩

/-- C7 amended: normalize returns 0 for a null or zero population and
log10 p / log10 M otherwise; the result lies in the unit interval whenever
0 < p, p ≤ M and 1 < M (the bound fails for p > M, see the
counterexample). -/
theorem claim_C7_normalize_amended (p : ℕ) (M : ℝ) (hp : 0 < p) (hpM : (p : ℝ) ≤ M)
    (hM : 1 < M) :
    normalizePopulation none M = 0 ∧
    normalizePopulation (some 0) M = 0 ∧
    normalizePopulation (some p) M = Real.logb 10 p / Real.logb 10 M ∧
    0 ≤ normalizePopulation (some p) M ∧ normalizePopulation (some p) M ≤ 1 := by
  have h10 : (1 : ℝ) < 10 := by norm_num
  have hp1 : (1 : ℝ) ≤ (p : ℝ) := by exact_mod_cast hp
  have hval : normalizePopulation (some p) M = Real.logb 10 p / Real.logb 10 M := by
    simp only [normalizePopulation]
    rw [if_neg hp.ne']
  have hnum0 : 0 ≤ Real.logb 10 p := Real.logb_nonneg h10 hp1
  have hden0 : 0 < Real.logb 10 M := Real.logb_pos h10 hM
  have hnumden : Real.logb 10 p ≤ Real.logb 10 M :=
    Real.logb_le_logb_of_le h10 (by linarith) hpM
  refine ⟨rfl, by simp [normalizePopulation], hval, ?_, ?_⟩
  · rw [hval]
    exact div_nonneg hnum0 hden0.le
  · rw [hval]
    exact (div_le_one hden0).mpr hnumden

/-- C7 witness: a population of 100 against a maximum of 1000 stays within
the unit interval. -/
theorem claim_C7_witness :
    0 ≤ normalizePopulation (some 100) 1000 ∧ normalizePopulation (some 100) 1000 ≤ 1 := by
  have h := claim_C7_normalize_amended 100 1000 (by norm_num) (by norm_num) (by norm_num)
  exact ⟨h.2.2.2.1, h.2.2.2.2⟩

/-! ### C6 (edit-distance fuzzy branch of the text scorer) -/

/-- C6: when the exact, prefix, whole-word and substring rules all fail and
the Levenshtein distance between the lowercased strings is within
max(2, floor(0.3 * len(query))), the text score is
0.4 + 0.2 * (1 - distance / max(len(candidate), len(query))) and lies in
the interval from 0.4 to 0.6. -/
theorem claim_C6_fuzzy_score (cityName query : List Char)
    (h1 : lowerStr cityName ≠ lowerStr query)
    (h2 : (lowerStr query).isPrefixOf (lowerStr cityName) = false)
    (h3 : (listIncludes (lowerStr cityName) (' ' :: lowerStr query ++ [' ']) ||
      (lowerStr query ++ [' ']).isPrefixOf (lowerStr cityName) ||
      (' ' :: lowerStr query).isSuffixOf (lowerStr cityName)) = false)
    (h4 : listIncludes (lowerStr cityName) (lowerStr query) = false)
    (h5 : levenshteinDistance (lowerStr cityName) (lowerStr query) ≤ fuzzyThreshold query.length) :
    calculateTextMatchScore cityName query =
      0.4 + 0.2 * (1 - (levenshteinDistance (lowerStr cityName) (lowerStr query) : ℚ) /
        (max cityName.length query.length : ℚ)) ∧
    0.4 ≤ calculateTextMatchScore cityName query ∧
    calculateTextMatchScore cityName query ≤ 0.6 := by
  have hql : (lowerStr query).length = query.length := lowerStr_length _
  have hcl : (lowerStr cityName).length = cityName.length := lowerStr_length _
  have hform : calculateTextMatchScore cityName query =
      0.4 + 0.2 * (1 - (levenshteinDistance (lowerStr cityName) (lowerStr query) : ℚ) /
        (max cityName.length query.length : ℚ)) := by
    unfold calculateTextMatchScore
    rw [if_neg h1, if_neg (by simp [h2]), if_neg (by simp_all), if_neg (by simp [h4]),
      if_pos (by rw [hql]; exact h5)]
    rw [hcl, hql]
    ring
  have hmax : 0 < max cityName.length query.length := by
    by_contra hc
    push_neg at hc
    interval_cases h : max cityName.length query.length
    have hcn : cityName.length = 0 := by omega
    have hqn : query.length = 0 := by omega
    exact h1 (by
      rw [List.length_eq_zero.mp hcn, List.length_eq_zero.mp hqn])
  have hd : levenshteinDistance (lowerStr cityName) (lowerStr query) ≤
      max cityName.length query.length := by
    have := levenshteinDistance_le (lowerStr cityName) (lowerStr query)
    rwa [hcl, hql] at this
  have hmaxQ : (0 : ℚ) < (max cityName.length query.length : ℚ) := by exact_mod_cast hmax
  have h0 : (0 : ℚ) ≤ (levenshteinDistance (lowerStr cityName) (lowerStr query) : ℚ) /
      (max cityName.length query.length : ℚ) := by positivity
  have hle1 : (levenshteinDistance (lowerStr cityName) (lowerStr query) : ℚ) /
      (max cityName.length query.length : ℚ) ≤ 1 := by
    rw [div_le_one hmaxQ]
    exact_mod_cast hd
  refine ⟨hform, ?_, ?_⟩
  · rw [hform]; linarith
  · rw [hform]; linarith

/-- C6 witness: the one-letter candidate a against the one-letter query b
takes the fuzzy branch (distance 1, threshold 2) and scores 0.4. -/
theorem claim_C6_witness :
    calculateTextMatchScore ['a'] ['b'] =
      0.4 + 0.2 * (1 -
        (levenshteinDistance (lowerStr ['a']) (lowerStr ['b']) : ℚ) /
        (max (['a'] : List Char).length (['b'] : List Char).length : ℚ)) ∧
    0.4 ≤ calculateTextMatchScore ['a'] ['b'] ∧
    calculateTextMatchScore ['a'] ['b'] ≤ 0.6 :=
  claim_C6_fuzzy_score ['a'] ['b']
    (by decide) (by decide) (by decide) (by decide)
    (by
      have e1 : lowerStr ['a'] = ['a'] := rfl
      have e2 : lowerStr ['b'] = ['b'] := rfl
      have e3 : levenshteinDistance ['a'] ['b'] = 1 := by
        rw [levenshteinDistance]
        norm_num [levenshteinDistance]
        decide
      have e4 : fuzzyThreshold (['b'] : List Char).length = 2 := by
        simp only [List.length_cons, List.length_nil, fuzzyThreshold]
        rw [Nat.floor_eq_zero.mpr (by norm_num)]
        rfl
      rw [e1, e2, e3, e4]
      norm_num)

/-! ### C1 (weights of the final score) -/

/-- C1: every candidate of every search response carries the final score
0.2 * populationScore + 0.7 * textScore + 0.1 * distanceScore computed from
its own database row (the score || 0 coercion cannot change the value,
since a zero blend is replaced by the same 0). -/
theorem claim_C1_final_score_weights (db : List City) (query cc sc : Option (List Char))
    (useLoc : Bool) (rloc : Location) (off : ℕ) :
    ∀ c ∈ (searchResponse db query cc sc useLoc rloc off).data,
      ∃ row ∈ sqlRows db query cc sc (if useLoc then some rloc else none) 10 off,
        c = scoreCity useLoc (if useLoc then some rloc else none) row ∧
        c.score = 0.2 * normalizePopulation row.city.population 10000000 +
          0.7 * (row.match_score : ℝ) + 0.1 * routeDistanceScore row.distance := by
  intro c hc
  have hdata : (searchResponse db query cc sc useLoc rloc off).data =
      ((sqlRows db query cc sc (if useLoc then some rloc else none) 10 off).map
        (scoreCity useLoc (if useLoc then some rloc else none))).mergeSort jsSortLeB := rfl
  rw [hdata, List.mem_mergeSort] at hc
  obtain ⟨row, hrow, hcrow⟩ := List.mem_map.mp hc
  refine ⟨row, hrow, hcrow.symm, ?_⟩
  rw [← hcrow]
  simp only [scoreCity]
  rw [jsOrNum_zero_right]
  ring

def wCity : City :=
  { geoname_id := 1, city_name := ['r', 'i', 'g', 'a'], country_code := none
    state_code := none, state_name := none, latitude := 0, longitude := 0
    population := none }

def wDb : List City := [wCity]

noncomputable def wRow : SqlRow :=
  { city := wCity
    match_score := matchScoreSql (sqlParam1 none none none) wCity.city_name
    distance := none
    total_count := 1 }

/-- C1 witness: the single candidate of a one-city search carries the
weighted blend of its three scores. -/
theorem claim_C1_witness :
    (scoreCity false none wRow).score =
      0.2 * normalizePopulation wRow.city.population 10000000 +
      0.7 * (wRow.match_score : ℝ) + 0.1 * routeDistanceScore wRow.distance := by
  have hrows : sqlRows wDb none none none none 10 0 = [wRow] := by
    show ((([wRow] : List SqlRow).mergeSort sqlOrderLeB).drop 0).take 10 = [wRow]
    rw [List.mergeSort_singleton]
    rfl
  have hdata : (searchResponse wDb none none none false ⟨0, 0⟩ 0).data =
      [scoreCity false none wRow] := by
    show ((sqlRows wDb none none none none 10 0).map (scoreCity false none)).mergeSort
        jsSortLeB = _
    rw [hrows]
    exact List.mergeSort_singleton _
  have hmem : scoreCity false none wRow ∈ (searchResponse wDb none none none false ⟨0, 0⟩ 0).data := by
    rw [hdata]
    exact List.mem_singleton_self _
  obtain ⟨row, hrow, hceq, hscore⟩ :=
    claim_C1_final_score_weights wDb none none none false ⟨0, 0⟩ 0 _ hmem
  rw [show (if (false : Bool) then some (⟨0, 0⟩ : Location) else none) =
    (none : Option Location) from rfl] at hrow
  rw [hrows] at hrow
  have hr : row = wRow := List.mem_singleton.mp hrow
  subst hr
  rw [hceq] at hscore
  exact hscore

/-! ### C3 (missing query) -/

def c3City : City :=
  { geoname_id := 7, city_name := ['d', 'a', 'l', 'l', 'a', 's']
    country_code := some ['U', 'S'], state_code := none, state_name := none
    latitude := 0, longitude := 0, population := none }

noncomputable def c3Row : SqlRow :=
  { city := c3City
    match_score := matchScoreSql (sqlParam1 none (some ['u', 's']) none) c3City.city_name
    distance := none
    total_count := 1 }

/-- C3 counterexample: a request with no query at all (and a country filter)
is answered with status 200 and a non-empty result page; the canonical route
has no QueryRequired branch and produces no 400. -/
theorem claim_C3_counterexample :
    (handleSearch [c3City] none (some ['u', 's']) none false ⟨0, 0⟩ 0).statusCode = 200 ∧
    (handleSearch [c3City] none (some ['u', 's']) none false ⟨0, 0⟩ 0).pageLength = 1 := by
  refine ⟨rfl, ?_⟩
  have hrows : sqlRows [c3City] none (some ['u', 's']) none none 10 0 = [c3Row] := by
    show ((([c3Row] : List SqlRow).mergeSort sqlOrderLeB).drop 0).take 10 = [c3Row]
    rw [List.mergeSort_singleton]
    rfl
  have hdata : (searchResponse [c3City] none (some ['u', 's']) none false ⟨0, 0⟩ 0).data =
      [scoreCity false none c3Row] := by
    show ((sqlRows [c3City] none (some ['u', 's']) none none 10 0).map
      (scoreCity false none)).mergeSort jsSortLeB = _
    rw [hrows]
    exact List.mergeSort_singleton _
  show (searchResponse [c3City] none (some ['u', 's']) none false ⟨0, 0⟩ 0).data.length = 1
  rw [hdata]
  rfl

/-- C3 amended: the canonical route does not validate the query parameter.
A missing or empty query is treated as the absence of a name filter: the
request succeeds with status 200 and the candidate set is the whole table
(an earlier iteration of the route returned 400 QueryRequired instead). -/
theorem claim_C3_missing_query_amended (db : List City) (useLoc : Bool) (rloc : Location)
    (off : ℕ) :
    (handleSearch db none none none useLoc rloc off).statusCode = 200 ∧
    (handleSearch db (some []) none none useLoc rloc off).statusCode = 200 ∧
    db.filter (rowFilter none none none) = db ∧
    db.filter (rowFilter (some []) none none) = db := by
  refine ⟨rfl, rfl, ?_, ?_⟩
  · exact List.filter_eq_self.mpr (fun a _ => rfl)
  · exact List.filter_eq_self.mpr (fun a _ => rfl)

/-! ### C10 (total read from the first row of the page) -/

/-- C10: whenever the returned page is empty the response reports
pagination total 0 and hasMore false, because the total is read from the
first row of the page through optional chaining with a zero fallback. -/
theorem claim_C10_empty_page_total (db : List City) (query cc sc : Option (List Char))
    (useLoc : Bool) (rloc : Location) (off : ℕ)
    (h : sqlRows db query cc sc (if useLoc then some rloc else none) 10 off = []) :
    (searchResponse db query cc sc useLoc rloc off).pagination.total = 0 ∧
    (searchResponse db query cc sc useLoc rloc off).pagination.hasMore = false := by
  constructor
  · show jsOrNat (((sqlRows db query cc sc (if useLoc then some rloc else none) 10 off).head?).map
      SqlRow.total_count) 0 = 0
    rw [h]
    rfl
  · show decide (off + 10 <
      jsOrNat (((sqlRows db query cc sc (if useLoc then some rloc else none) 10 off).head?).map
        SqlRow.total_count) 0) = false
    rw [h]
    simp [jsOrNat]

/-- C10 witness: one matching city, offset 50: the page is empty, the
matching candidate exists, and the response still reports total 0 and
hasMore false. -/
theorem claim_C10_witness :
    ([wCity].filter (rowFilter none none none)).length = 1 ∧
    (searchResponse wDb none none none false ⟨0, 0⟩ 50).pagination.total = 0 ∧
    (searchResponse wDb none none none false ⟨0, 0⟩ 50).pagination.hasMore = false := by
  have hrows : sqlRows wDb none none none none 10 50 = [] := by
    show ((([wRow] : List SqlRow).mergeSort sqlOrderLeB).drop 50).take 10 = []
    rw [List.mergeSort_singleton]
    rfl
  have h := claim_C10_empty_page_total wDb none none none false ⟨0, 0⟩ 50 (by
    rw [show (if (false : Bool) then some (⟨0, 0⟩ : Location) else none) =
      (none : Option Location) from rfl]
    exact hrows)
  exact ⟨rfl, h.1, h.2⟩

/-! ### Geolocation cache lemmas -/

theorem cacheSet_erase (m : GeoCache) (k : List Char) (v : GeoCacheEntry) :
    cacheSet (cacheErase m k) k v = cacheSet m k v := by
  funext k'
  unfold cacheSet cacheErase
  by_cases h : k' = k <;> simp [h]

theorem getLocationFromIP_eq (cache : GeoCache) (now : ℕ) (ip0 : List Char)
    (up : UpstreamOutcome) :
    getLocationFromIP cache now ip0 up =
      match cacheHit cache now (replaceFirst ip0 ipv6Mapped) with
      | some loc => (loc, cache)
      | none => resolveUncached cache now (replaceFirst ip0 ipv6Mapped) up := rfl

theorem cacheHit_of_entry (cache : GeoCache) (now : ℕ) (ip : List Char) (e : GeoCacheEntry)
    (h : cache ip = some e) :
    cacheHit cache now ip =
      if now - e.timestamp < CACHE_TTL then some e.location else none := by
  unfold cacheHit
  rw [h]

theorem cacheHit_of_none (cache : GeoCache) (now : ℕ) (ip : List Char)
    (h : cache ip = none) : cacheHit cache now ip = none := by
  unfold cacheHit
  rw [h]

theorem resolveUncached_erase (m : GeoCache) (now : ℕ) (k : List Char)
    (up : UpstreamOutcome) :
    resolveUncached (cacheErase m k) now k up = resolveUncached m now k up := by
  unfold resolveUncached
  split_ifs with h
  · rw [cacheSet_erase]
  · cases up <;> dsimp only <;> (try split_ifs) <;> rw [cacheSet_erase]

theorem resolveUncached_cache_at (m : GeoCache) (now : ℕ) (k : List Char)
    (up : UpstreamOutcome) :
    ((resolveUncached m now k up).2) k =
      some ⟨(resolveUncached m now k up).1, now⟩ := by
  unfold resolveUncached
  split_ifs with h
  · simp [cacheSet]
  · cases up <;> dsimp only <;> (try split_ifs) <;> simp [cacheSet]

theorem getLocationFromIP_entry_location (cache : GeoCache) (now : ℕ) (ip0 : List Char)
    (up : UpstreamOutcome) (e : GeoCacheEntry)
    (h : ((getLocationFromIP cache now ip0 up).2) (replaceFirst ip0 ipv6Mapped) = some e) :
    e.location = (getLocationFromIP cache now ip0 up).1 := by
  rw [getLocationFromIP_eq] at h ⊢
  cases hhit : cacheHit cache now (replaceFirst ip0 ipv6Mapped) with
  | some loc =>
    rw [hhit] at h
    dsimp only at h ⊢
    rw [cacheHit_of_entry cache now _ e h] at hhit
    split at hhit
    · simp only [Option.some.injEq] at hhit
      exact hhit
    · simp at hhit
  | none =>
    rw [hhit] at h
    dsimp only at h ⊢
    have hr := resolveUncached_cache_at cache now (replaceFirst ip0 ipv6Mapped) up
    rw [hr] at h
    simp only [Option.some.injEq] at h
    rw [← h]

/-! ### C9 (TTL invariant and idempotence within the TTL) -/

/-- C9: a stale cache entry is never used: the resolver behaves exactly as
if the entry were absent.  And after any resolution, a second resolution of
the same address while the stored entry is still fresh returns the very
location the first call produced, leaves the cache untouched, and does not
depend on the upstream service (it holds for every upstream outcome). -/
theorem claim_C9_cache_ttl :
    (∀ (cache : GeoCache) (now : ℕ) (ip0 : List Char) (up : UpstreamOutcome)
      (e : GeoCacheEntry),
      cache (replaceFirst ip0 ipv6Mapped) = some e →
      CACHE_TTL ≤ now - e.timestamp →
      getLocationFromIP cache now ip0 up =
        getLocationFromIP (cacheErase cache (replaceFirst ip0 ipv6Mapped)) now ip0 up) ∧
    (∀ (cache : GeoCache) (t0 t1 : ℕ) (ip0 : List Char) (up1 up2 : UpstreamOutcome)
      (l : Location) (ts : ℕ),
      ((getLocationFromIP cache t0 ip0 up1).2) (replaceFirst ip0 ipv6Mapped) = some ⟨l, ts⟩ →
      t1 - ts < CACHE_TTL →
      getLocationFromIP ((getLocationFromIP cache t0 ip0 up1).2) t1 ip0 up2 =
        ((getLocationFromIP cache t0 ip0 up1).1, (getLocationFromIP cache t0 ip0 up1).2)) := by
  constructor
  · intro cache now ip0 up e he hstale
    rw [getLocationFromIP_eq, getLocationFromIP_eq]
    have h1 : cacheHit cache now (replaceFirst ip0 ipv6Mapped) = none := by
      rw [cacheHit_of_entry cache now _ e he]
      rw [if_neg (by omega)]
    have h2 : cacheHit (cacheErase cache (replaceFirst ip0 ipv6Mapped)) now
        (replaceFirst ip0 ipv6Mapped) = none := by
      apply cacheHit_of_none
      unfold cacheErase
      simp
    rw [h1, h2]
    dsimp only
    exact (resolveUncached_erase cache now (replaceFirst ip0 ipv6Mapped) up).symm
  · intro cache t0 t1 ip0 up1 up2 l ts hentry hfresh
    have hloc : l = (getLocationFromIP cache t0 ip0 up1).1 :=
      getLocationFromIP_entry_location cache t0 ip0 up1 ⟨l, ts⟩ hentry
    have hhit2 : cacheHit ((getLocationFromIP cache t0 ip0 up1).2) t1
        (replaceFirst ip0 ipv6Mapped) = some l := by
      rw [cacheHit_of_entry _ t1 _ ⟨l, ts⟩ hentry]
      rw [if_pos hfresh]
    rw [getLocationFromIP_eq _ t1, hhit2]
    dsimp only
    rw [hloc]

def c9Ip : List Char := ['8', '.', '8', '.', '8', '.', '8']

def c9Cache : GeoCache := cacheSet emptyGeoCache c9Ip ⟨⟨1, 2⟩, 0⟩

/-- C9 witness: a stale entry (written at time 0, queried at the TTL) is
recomputed exactly as if absent, and a fresh resolution followed by a second
call one millisecond later returns the identical location with no cache
change, whatever the second upstream outcome. -/
theorem claim_C9_witness :
    getLocationFromIP c9Cache CACHE_TTL c9Ip .netError =
      getLocationFromIP (cacheErase c9Cache c9Ip) CACHE_TTL c9Ip .netError ∧
    getLocationFromIP ((getLocationFromIP emptyGeoCache 0 c9Ip .netError).2) 1 c9Ip .parsedNull =
      ((getLocationFromIP emptyGeoCache 0 c9Ip .netError).1,
        (getLocationFromIP emptyGeoCache 0 c9Ip .netError).2) := by
  have hkey : replaceFirst c9Ip ipv6Mapped = c9Ip := by decide
  constructor
  · have h := claim_C9_cache_ttl.1 c9Cache CACHE_TTL c9Ip .netError ⟨⟨1, 2⟩, 0⟩
      (by rw [hkey]; rfl) (by simp)
    rwa [hkey] at h
  · have hentry : ((getLocationFromIP emptyGeoCache 0 c9Ip .netError).2)
        (replaceFirst c9Ip ipv6Mapped) = some ⟨defaultLocation, 0⟩ := by
      rw [hkey]
      show (resolveUncached emptyGeoCache 0 c9Ip .netError).2 c9Ip = some ⟨defaultLocation, 0⟩
      rfl
    exact claim_C9_cache_ttl.2 emptyGeoCache 0 1 c9Ip .netError .parsedNull
      defaultLocation 0 hentry (by decide)

/-! ### C8 (resolver degradation and cache writes) -/

def c8Ip : List Char := ['9', '.', '9', '.', '9', '.', '9']

def c8Loc : Location := ⟨1, 2⟩

def c8Cache : GeoCache := cacheSet emptyGeoCache c8Ip ⟨c8Loc, 5⟩

/-- C8 counterexample: the fresh-cache-hit path completes (it returns the
cached location) yet performs no cache write at all: the cache after the
call is bit-for-bit the cache before it, and the stored stamp is still the
old write time 5, not the call time 10 every write path would store. -/
theorem claim_C8_counterexample :
    getLocationFromIP c8Cache 10 c8Ip .netError = (c8Loc, c8Cache) ∧
    ((getLocationFromIP c8Cache 10 c8Ip .netError).2) c8Ip = some ⟨c8Loc, 5⟩ ∧
    (5 : ℕ) ≠ 10 := by
  have hkey : replaceFirst c8Ip ipv6Mapped = c8Ip := by decide
  have hc : c8Cache c8Ip = some ⟨c8Loc, 5⟩ := rfl
  have h1 : getLocationFromIP c8Cache 10 c8Ip .netError = (c8Loc, c8Cache) := by
    rw [getLocationFromIP_eq, hkey, cacheHit_of_entry c8Cache 10 c8Ip ⟨c8Loc, 5⟩ hc]
    rw [if_pos (by decide)]
  refine ⟨h1, ?_, by decide⟩
  rw [h1]
  exact hc

/-- The upstream shapes the source treats as failures: a transport error, a
body that fails to parse, a falsy parse result, or a parse result whose lat
or lon field is missing or zero. -/
def upstreamDegraded : UpstreamOutcome → Prop
  | .netError => True
  | .malformedBody => True
  | .parsedNull => True
  | .parsed fields => (jsFieldTruthy fields.lat && jsFieldTruthy fields.lon) = false

/-- C8 amended: the resolver always returns a Location; after every call the
cache holds an entry for the normalized address; every call that misses the
fresh cache writes the entry it returns stamped with the call time
(the fresh-hit path, by contrast, writes nothing, see the counterexample);
and on the local-address path and on every degraded upstream path the
returned Location is the fixed default. -/
theorem claim_C8_resolver_amended (cache : GeoCache) (now : ℕ) (ip0 : List Char)
    (up : UpstreamOutcome) :
    (((getLocationFromIP cache now ip0 up).2) (replaceFirst ip0 ipv6Mapped)).isSome = true ∧
    (cacheHit cache now (replaceFirst ip0 ipv6Mapped) = none →
      ((getLocationFromIP cache now ip0 up).2) (replaceFirst ip0 ipv6Mapped) =
        some ⟨(getLocationFromIP cache now ip0 up).1, now⟩) ∧
    (cacheHit cache now (replaceFirst ip0 ipv6Mapped) = none →
      isLocalIp (replaceFirst ip0 ipv6Mapped) = true →
      (getLocationFromIP cache now ip0 up).1 = defaultLocation) ∧
    (cacheHit cache now (replaceFirst ip0 ipv6Mapped) = none →
      isLocalIp (replaceFirst ip0 ipv6Mapped) = false →
      upstreamDegraded up →
      (getLocationFromIP cache now ip0 up).1 = defaultLocation) := by
  cases hhit : cacheHit cache now (replaceFirst ip0 ipv6Mapped) with
  | some loc =>
    have hsome : (cache (replaceFirst ip0 ipv6Mapped)).isSome = true := by
      cases hc : cache (replaceFirst ip0 ipv6Mapped) with
      | none => rw [cacheHit_of_none _ _ _ hc] at hhit; simp at hhit
      | some e => rfl
    refine ⟨?_, ?_, ?_, ?_⟩
    · rw [getLocationFromIP_eq, hhit]
      exact hsome
    · intro hn; simp at hn
    · intro hn; simp at hn
    · intro hn; simp at hn
  | none =>
    have hout : getLocationFromIP cache now ip0 up =
        resolveUncached cache now (replaceFirst ip0 ipv6Mapped) up := by
      rw [getLocationFromIP_eq, hhit]
    have hwrite := resolveUncached_cache_at cache now (replaceFirst ip0 ipv6Mapped) up
    refine ⟨?_, ?_, ?_, ?_⟩
    · rw [hout, hwrite]
      rfl
    · intro _
      rw [hout]
      exact hwrite
    · intro _ hl
      rw [hout]
      unfold resolveUncached
      rw [if_pos hl]
    · intro _ hl hd
      rw [hout]
      unfold resolveUncached
      rw [if_neg (by simp [hl])]
      cases up with
      | netError => rfl
      | malformedBody => rfl
      | parsedNull => rfl
      | parsed fields =>
        dsimp only
        rw [if_neg (by simp_all [upstreamDegraded])]

def c8wIp : List Char := ['5', '.', '5', '.', '5', '.', '5']

/-- C8 witness: a cold-cache resolution of a public address with a network
error returns the default location and writes it, stamped with the call
time, under the normalized address. -/
theorem claim_C8_witness :
    (((getLocationFromIP emptyGeoCache 7 c8wIp .netError).2)
      (replaceFirst c8wIp ipv6Mapped)).isSome = true ∧
    ((getLocationFromIP emptyGeoCache 7 c8wIp .netError).2) (replaceFirst c8wIp ipv6Mapped) =
      some ⟨(getLocationFromIP emptyGeoCache 7 c8wIp .netError).1, 7⟩ ∧
    (getLocationFromIP emptyGeoCache 7 c8wIp .netError).1 = defaultLocation := by
  have h := claim_C8_resolver_amended emptyGeoCache 7 c8wIp .netError
  have hnone : cacheHit emptyGeoCache 7 (replaceFirst c8wIp ipv6Mapped) = none :=
    cacheHit_of_none _ _ _ rfl
  exact ⟨h.1, h.2.1 hnone, h.2.2.2 hnone (by decide) trivial⟩

/-! ### C4 (which distance feeds the distance score) -/

def c4City : City :=
  { geoname_id := 3, city_name := ['x'], country_code := none, state_code := none
    state_name := none, latitude := 0, longitude := 180, population := none }

def c4Loc : Location := ⟨0, 0⟩

noncomputable def c4Row : SqlRow :=
  { city := c4City
    match_score := matchScoreSql (sqlParam1 (some ['x']) none none) c4City.city_name
    distance := some (pointOpDist c4Loc.lat c4Loc.lon c4City.latitude c4City.longitude)
    total_count := 1 }

theorem c4_sqlRows :
    sqlRows [c4City] (some ['x']) none none (some c4Loc) 10 0 = [c4Row] := by
  show ((([c4Row] : List SqlRow).mergeSort sqlOrderLeB).drop 0).take 10 = [c4Row]
  rw [List.mergeSort_singleton]
  rfl

theorem c4_pointOpDist : pointOpDist c4Loc.lat c4Loc.lon c4City.latitude c4City.longitude = 180 := by
  show Real.sqrt ((((0 : ℚ) : ℝ) - ((0 : ℚ) : ℝ)) ^ 2 + (((0 : ℚ) : ℝ) - ((180 : ℚ) : ℝ)) ^ 2) = 180
  have h : (((0 : ℚ) : ℝ) - ((0 : ℚ) : ℝ)) ^ 2 + (((0 : ℚ) : ℝ) - ((180 : ℚ) : ℝ)) ^ 2 =
      (180 : ℝ) ^ 2 := by
    push_cast
    ring
  rw [h, Real.sqrt_sq (by norm_num : (0 : ℝ) ≤ 180)]

theorem c4_routeScore : routeDistanceScore (some (180 : ℝ)) = 0.82 := by
  simp only [routeDistanceScore]
  rw [if_neg (by norm_num), show (1 : ℝ) - 180 / 1000 = 0.82 by norm_num,
    max_eq_right (by norm_num : (0 : ℝ) ≤ 0.82)]

theorem c4_haversine : calculateDistance 0 0 0 180 = 6371 * Real.pi := by
  have hA : Real.sin (((0 : ℝ) - 0) * Real.pi / 180 / 2) *
      Real.sin (((0 : ℝ) - 0) * Real.pi / 180 / 2) +
      Real.cos ((0 : ℝ) * Real.pi / 180) * Real.cos ((0 : ℝ) * Real.pi / 180) *
      Real.sin (((180 : ℝ) - 0) * Real.pi / 180 / 2) *
      Real.sin (((180 : ℝ) - 0) * Real.pi / 180 / 2) = 1 := by
    have e0 : ((0 : ℝ) - 0) * Real.pi / 180 / 2 = 0 := by ring
    have e1 : (0 : ℝ) * Real.pi / 180 = 0 := by ring
    have e2 : ((180 : ℝ) - 0) * Real.pi / 180 / 2 = Real.pi / 2 := by ring
    rw [e0, e1, e2, Real.sin_zero, Real.cos_zero, Real.sin_pi_div_two]
    ring
  have hcd : calculateDistance 0 0 0 180 =
      6371 * (2 * jsAtan2 (Real.sqrt 1) (Real.sqrt (1 - 1))) := by
    unfold calculateDistance
    dsimp only
    rw [hA]
  have hj : jsAtan2 (Real.sqrt 1) (Real.sqrt (1 - 1)) = Real.pi / 2 := by
    rw [Real.sqrt_one, show (1 : ℝ) - 1 = 0 by ring, Real.sqrt_zero]
    unfold jsAtan2
    rw [if_neg (lt_irrefl 0), if_neg (lt_irrefl 0), if_pos one_pos]
  rw [hcd, hj]
  ring

/-- C4 counterexample: with the client at (0, 0) and the candidate at
(0, 180), the route's scored candidate carries distance score 0.82 (from the
planar degree distance 180 the database operator returns), while the
claimed haversine-based formula evaluates to 0 (the great-circle distance
6371 * pi km is far beyond the 1000 km cut-off). -/
theorem claim_C4_counterexample :
    ((pipelineData [c4City] (some ['x']) none none true c4Loc 10 0).map
      (fun c => c.debug.map DebugInfo.distanceScore)) = [some (0.82 : ℝ)] ∧
    max 0 (1 - calculateDistance 0 0 0 180 / 1000) = 0 ∧
    (0.82 : ℝ) ≠ 0 := by
  refine ⟨?_, ?_, by norm_num⟩
  · have hdata : pipelineData [c4City] (some ['x']) none none true c4Loc 10 0 =
        [scoreCity true (some c4Loc) c4Row] := by
      show ((sqlRows [c4City] (some ['x']) none none (some c4Loc) 10 0).map
        (scoreCity true (some c4Loc))).mergeSort jsSortLeB = _
      rw [c4_sqlRows]
      exact List.mergeSort_singleton _
    rw [hdata]
    show [some (routeDistanceScore
      (some (pointOpDist c4Loc.lat c4Loc.lon c4City.latitude c4City.longitude)))] =
      [some (0.82 : ℝ)]
    rw [c4_pointOpDist, c4_routeScore]
  · rw [c4_haversine]
    have hpi := Real.pi_gt_three
    rw [max_eq_left (by nlinarith)]

/-- C4 amended: for every scored candidate of a search with a known
location, the distance fed to the score is the planar Euclidean distance in
degrees between the (latitude, longitude) points, computed by the database
point-distance operator, not the haversine great-circle distance; the score
is max(0, 1 - d/1000) for d different from 0 and the neutral 0.5 at exactly
d = 0. -/
theorem claim_C4_distance_score_amended (db : List City) (query cc sc : Option (List Char))
    (rloc : Location) (off : ℕ) :
    ∀ c ∈ (searchResponse db query cc sc true rloc off).data,
      ∃ row ∈ sqlRows db query cc sc (some rloc) 10 off,
        c = scoreCity true (some rloc) row ∧
        row.distance = some (pointOpDist rloc.lat rloc.lon row.city.latitude
          row.city.longitude) ∧
        c.debug.map DebugInfo.distanceScore = some
          (if pointOpDist rloc.lat rloc.lon row.city.latitude row.city.longitude = 0
            then (0.5 : ℝ)
            else max 0 (1 - pointOpDist rloc.lat rloc.lon row.city.latitude
              row.city.longitude / 1000)) := by
  intro c hc
  have hdata : (searchResponse db query cc sc true rloc off).data =
      ((sqlRows db query cc sc (some rloc) 10 off).map
        (scoreCity true (some rloc))).mergeSort jsSortLeB := rfl
  rw [hdata, List.mem_mergeSort] at hc
  obtain ⟨row, hrow, hceq⟩ := List.mem_map.mp hc
  have hrows_eq : sqlRows db query cc sc (some rloc) 10 off =
      ((((db.filter (rowFilter query cc sc)).map (fun cty =>
        ({ city := cty
           match_score := matchScoreSql (sqlParam1 query cc sc) cty.city_name
           distance := (some rloc).map
             (fun u => pointOpDist u.lat u.lon cty.latitude cty.longitude)
           total_count := (db.filter (rowFilter query cc sc)).length } : SqlRow))).mergeSort
        sqlOrderLeB).drop off).take 10 := rfl
  have hdist : row.distance = some (pointOpDist rloc.lat rloc.lon row.city.latitude
      row.city.longitude) := by
    rw [hrows_eq] at hrow
    have h1 := List.drop_subset _ _ (List.take_subset _ _ hrow)
    rw [List.mem_mergeSort] at h1
    obtain ⟨cty, _, heq⟩ := List.mem_map.mp h1
    rw [← heq]
    rfl
  refine ⟨row, hrow, hceq.symm, hdist, ?_⟩
  rw [← hceq]
  show some (routeDistanceScore row.distance) = _
  rw [hdist]
  simp only [routeDistanceScore]

/-- C4 witness: the amended statement evaluated on the (0, 0) client and the
(0, 180) candidate, whose planar distance is non-zero. -/
theorem claim_C4_witness :
    (scoreCity true (some c4Loc) c4Row).debug.map DebugInfo.distanceScore = some
      (if pointOpDist c4Loc.lat c4Loc.lon c4Row.city.latitude c4Row.city.longitude = 0
        then (0.5 : ℝ)
        else max 0 (1 - pointOpDist c4Loc.lat c4Loc.lon c4Row.city.latitude
          c4Row.city.longitude / 1000)) := by
  have hdata : (searchResponse [c4City] (some ['x']) none none true c4Loc 0).data =
      [scoreCity true (some c4Loc) c4Row] := by
    show ((sqlRows [c4City] (some ['x']) none none (some c4Loc) 10 0).map
      (scoreCity true (some c4Loc))).mergeSort jsSortLeB = _
    rw [c4_sqlRows]
    exact List.mergeSort_singleton _
  have hmem : scoreCity true (some c4Loc) c4Row ∈
      (searchResponse [c4City] (some ['x']) none none true c4Loc 0).data := by
    rw [hdata]
    exact List.mem_singleton_self _
  obtain ⟨row, hrow, hceq, hdist, hdbg⟩ :=
    claim_C4_distance_score_amended [c4City] (some ['x']) none none c4Loc 0 _ hmem
  rw [c4_sqlRows] at hrow
  have hr : row = c4Row := List.mem_singleton.mp hrow
  subst hr
  exact hdbg

/-! ### C2 (pagination versus scoring order) -/

theorem jsSortLeB_trans : ∀ a b c : ScoredCity, jsSortLeB a b → jsSortLeB b c → jsSortLeB a c := by
  intro a b c h1 h2
  simp only [jsSortLeB, decide_eq_true_eq] at *
  exact le_trans h2 h1

theorem jsSortLeB_total : ∀ a b : ScoredCity, jsSortLeB a b || jsSortLeB b a := by
  intro a b
  simp only [jsSortLeB]
  rcases le_total b.score a.score with h | h <;> simp [h]

/-- C2 amended: offset and limit are applied inside the database statement,
to the candidate set in its SQL order (match_score, population, distance),
before any final score exists; only the fetched page is then re-sorted by
final score.  So each returned page is exactly a permutation, descending by
final score, of the corresponding slice of the SQL-ordered candidate set —
and page concatenation need not agree with a wider page (see the
counterexample). -/
theorem claim_C2_pagination_amended (db : List City) (query cc sc : Option (List Char))
    (useLoc : Bool) (rloc : Location) (lim off : ℕ) :
    (pipelineData db query cc sc useLoc rloc lim off).Pairwise
      (fun a b => b.score ≤ a.score) ∧
    (pipelineData db query cc sc useLoc rloc lim off).Perm
      ((sqlRows db query cc sc (if useLoc then some rloc else none) lim off).map
        (scoreCity useLoc (if useLoc then some rloc else none))) := by
  constructor
  · have hs := List.sorted_mergeSort jsSortLeB_trans jsSortLeB_total
      ((sqlRows db query cc sc (if useLoc then some rloc else none) lim off).map
        (scoreCity useLoc (if useLoc then some rloc else none)))
    have hdef : pipelineData db query cc sc useLoc rloc lim off =
        ((sqlRows db query cc sc (if useLoc then some rloc else none) lim off).map
          (scoreCity useLoc (if useLoc then some rloc else none))).mergeSort jsSortLeB := rfl
    rw [hdef]
    exact hs.imp (fun h => of_decide_eq_true h)
  · exact List.mergeSort_perm _ _

def parisName : List Char := ['p', 'a', 'r', 'i', 's']

def c2CityA : City :=
  { geoname_id := 0, city_name := parisName, country_code := none, state_code := none
    state_name := none, latitude := 0, longitude := 0, population := none }

def c2CityB : City :=
  { geoname_id := 10, city_name := ['p', 'a', 'r', 'i', 's', 'v', 'i', 'l', 'l', 'e']
    country_code := none, state_code := none, state_name := none
    latitude := 0, longitude := 0, population := some (10 ^ 7) }

def c2Db : List City := List.replicate 10 c2CityA ++ [c2CityB]

noncomputable def c2RowA : SqlRow :=
  { city := c2CityA
    match_score := matchScoreSql (sqlParam1 (some parisName) none none) c2CityA.city_name
    distance := none
    total_count := 11 }

noncomputable def c2RowB : SqlRow :=
  { city := c2CityB
    match_score := matchScoreSql (sqlParam1 (some parisName) none none) c2CityB.city_name
    distance := none
    total_count := 11 }

theorem c2_stage : ∀ lim off : ℕ,
    sqlRows c2Db (some parisName) none none none lim off =
      (((List.replicate 10 c2RowA ++ [c2RowB]).mergeSort sqlOrderLeB).drop off).take lim :=
  fun _ _ => rfl

theorem c2_rowA_le_rowA : sqlOrderLeB c2RowA c2RowA = true := by
  apply decide_eq_true
  exact Or.inr ⟨rfl, Or.inr ⟨rfl, by show distAscLe none none; trivial⟩⟩

theorem c2_matchA : c2RowA.match_score = 1 := by
  show matchScoreSql (sqlParam1 (some parisName) none none) c2CityA.city_name = 1
  rw [show sqlParam1 (some parisName) none none = some parisName from rfl]
  simp only [matchScoreSql]
  rw [if_pos (by decide)]
  norm_num

theorem c2_matchB : c2RowB.match_score = 0.9 := by
  show matchScoreSql (sqlParam1 (some parisName) none none) c2CityB.city_name = 0.9
  rw [show sqlParam1 (some parisName) none none = some parisName from rfl]
  simp only [matchScoreSql]
  rw [if_neg (by decide), if_pos (by decide)]

theorem c2_rowA_le_rowB : sqlOrderLeB c2RowA c2RowB = true := by
  apply decide_eq_true
  refine Or.inl ?_
  rw [c2_matchA, c2_matchB]
  norm_num

theorem c2_ordered :
    (List.replicate 10 c2RowA ++ [c2RowB]).mergeSort sqlOrderLeB =
      List.replicate 10 c2RowA ++ [c2RowB] := by
  apply List.mergeSort_of_sorted
  apply List.pairwise_append.mpr
  refine ⟨?_, ?_, ?_⟩
  · exact pairwise_replicate_of_rel (fun x y => sqlOrderLeB x y = true) c2RowA
      c2_rowA_le_rowA 10
  · simp
  · intro x hx y hy
    rw [List.eq_of_mem_replicate hx, List.mem_singleton.mp hy]
    exact c2_rowA_le_rowB

theorem c2_slices : ∀ lim off : ℕ,
    sqlRows c2Db (some parisName) none none none lim off =
      ((List.replicate 10 c2RowA ++ [c2RowB]).drop off).take lim := by
  intro lim off
  rw [c2_stage lim off, c2_ordered]

theorem c2_scoreA : (scoreCity false none c2RowA).score = 0.75 := by
  show jsOrNum (normalizePopulation c2RowA.city.population 10000000 * 0.2 +
    (c2RowA.match_score : ℝ) * 0.7 + routeDistanceScore c2RowA.distance * 0.1) 0 = 0.75
  rw [show normalizePopulation c2RowA.city.population 10000000 = 0 from rfl]
  rw [c2_matchA]
  rw [show routeDistanceScore c2RowA.distance = 0.5 from rfl]
  unfold jsOrNum
  rw [if_neg (by push_cast; norm_num)]
  push_cast
  norm_num

theorem c2_scoreB : (scoreCity false none c2RowB).score = 0.88 := by
  show jsOrNum (normalizePopulation c2RowB.city.population 10000000 * 0.2 +
    (c2RowB.match_score : ℝ) * 0.7 + routeDistanceScore c2RowB.distance * 0.1) 0 = 0.88
  have hpop : normalizePopulation c2RowB.city.population 10000000 = 1 := by
    show normalizePopulation (some (10 ^ 7)) 10000000 = 1
    simp only [normalizePopulation]
    rw [if_neg (by norm_num)]
    have hcast : ((10 ^ 7 : ℕ) : ℝ) = (10 : ℝ) ^ (7 : ℕ) := by push_cast; ring
    have h2 : (10000000 : ℝ) = (10 : ℝ) ^ (7 : ℕ) := by norm_num
    rw [hcast, h2, Real.logb_pow, Real.logb_self_eq_one (by norm_num : (1 : ℝ) < 10)]
    norm_num
  rw [hpop]
  rw [c2_matchB]
  rw [show routeDistanceScore c2RowB.distance = 0.5 from rfl]
  unfold jsOrNum
  rw [if_neg (by push_cast; norm_num)]
  push_cast
  norm_num

/-- C2 counterexample: on an 11-city table (ten exact-match cities with no
population and one prefix-match city of population 10^7) the concatenation
of pages [0,10) and [10,20) differs from the first 20 entries of the page
[0,20): the big prefix-match city out-scores the exact matches, so it leads
the wide page but sits last in the concatenation — offset and limit are
applied before scoring, not to the score-sorted candidate set. -/
theorem claim_C2_counterexample :
    ((pipelineData c2Db (some parisName) none none false ⟨0, 0⟩ 10 0) ++
      (pipelineData c2Db (some parisName) none none false ⟨0, 0⟩ 10 10)).map
        ScoredCity.geoname_id ≠
    ((pipelineData c2Db (some parisName) none none false ⟨0, 0⟩ 20 0).map
      ScoredCity.geoname_id).take 20 := by
  have hpage1 : pipelineData c2Db (some parisName) none none false ⟨0, 0⟩ 10 0 =
      List.replicate 10 (scoreCity false none c2RowA) := by
    show ((sqlRows c2Db (some parisName) none none none 10 0).map
      (scoreCity false none)).mergeSort jsSortLeB = _
    rw [c2_slices 10 0]
    rw [show ((List.replicate 10 c2RowA ++ [c2RowB]).drop 0).take 10 =
      List.replicate 10 c2RowA from rfl]
    rw [List.map_replicate]
    apply List.mergeSort_of_sorted
    exact pairwise_replicate_of_rel (fun x y => jsSortLeB x y = true)
      (scoreCity false none c2RowA) (decide_eq_true (le_refl _)) 10
  have hpage2 : pipelineData c2Db (some parisName) none none false ⟨0, 0⟩ 10 10 =
      [scoreCity false none c2RowB] := by
    show ((sqlRows c2Db (some parisName) none none none 10 10).map
      (scoreCity false none)).mergeSort jsSortLeB = _
    rw [c2_slices 10 10]
    rw [show ((List.replicate 10 c2RowA ++ [c2RowB]).drop 10).take 10 = [c2RowB] from rfl]
    exact List.mergeSort_singleton _
  have hwide : pipelineData c2Db (some parisName) none none false ⟨0, 0⟩ 20 0 =
      (List.replicate 10 (scoreCity false none c2RowA) ++
        [scoreCity false none c2RowB]).mergeSort jsSortLeB := by
    show ((sqlRows c2Db (some parisName) none none none 20 0).map
      (scoreCity false none)).mergeSort jsSortLeB = _
    rw [c2_slices 20 0]
    rw [show ((List.replicate 10 c2RowA ++ [c2RowB]).drop 0).take 20 =
      List.replicate 10 c2RowA ++ [c2RowB] from rfl]
    rw [List.map_append, List.map_replicate]
    rfl
  have hnr : ¬ (jsSortLeB (scoreCity false none c2RowA) (scoreCity false none c2RowB) = true) := by
    simp only [jsSortLeB, decide_eq_true_eq]
    rw [c2_scoreA, c2_scoreB]
    norm_num
  have hhead : ((List.replicate 10 (scoreCity false none c2RowA) ++
      [scoreCity false none c2RowB]).mergeSort jsSortLeB).head? =
      some (scoreCity false none c2RowB) := by
    apply head_of_pairwise_two (fun a b => jsSortLeB a b = true) _
      (scoreCity false none c2RowA) (scoreCity false none c2RowB)
    · exact List.sorted_mergeSort jsSortLeB_trans jsSortLeB_total _
    · rw [List.mem_mergeSort]
      exact List.mem_append_right _ (List.mem_singleton_self _)
    · intro x hx
      rw [List.mem_mergeSort] at hx
      rcases List.mem_append.mp hx with hx | hx
      · exact Or.inl (List.eq_of_mem_replicate hx)
      · exact Or.inr (List.mem_singleton.mp hx)
    · exact hnr
  intro hcontra
  rw [hpage1, hpage2, hwide] at hcontra
  obtain ⟨tail, htail⟩ : ∃ tail,
      (List.replicate 10 (scoreCity false none c2RowA) ++
        [scoreCity false none c2RowB]).mergeSort jsSortLeB =
        scoreCity false none c2RowB :: tail := by
    cases hL : (List.replicate 10 (scoreCity false none c2RowA) ++
        [scoreCity false none c2RowB]).mergeSort jsSortLeB with
    | nil => rw [hL] at hhead; simp at hhead
    | cons x t =>
      rw [hL] at hhead
      simp only [List.head?_cons, Option.some.injEq] at hhead
      exact ⟨t, by rw [hhead]⟩
  rw [htail] at hcontra
  have hheads := congrArg List.head? hcontra
  rw [show ((List.replicate 10 (scoreCity false none c2RowA) ++
    [scoreCity false none c2RowB]).map ScoredCity.geoname_id).head? = some 0 from rfl] at hheads
  rw [show (((scoreCity false none c2RowB :: tail).map ScoredCity.geoname_id).take 20).head? =
    some 10 from rfl] at hheads
  simp at hheads
